import Mathlib

/-!
Shallow embedding of the Videoflix video processing pipeline
(video_app/utils/hls.py, video_app/utils/core.py, video_app/utils/ffmpeg.py,
video_app/utils/validators.py, video_app/signals.py, video_app/file_utils.py).

External effects (ffmpeg subprocesses, the filesystem, the RQ queue, Django
model saves) are modelled by explicit environment records holding the outcome
of each effectful step; the control flow of every embedded function follows
the Python source line by line.
-/

namespace Videoflix

/-- Persisted `processing_status` values of the Video model. -/
inductive PStatus where
  | pending
  | processing
  | completed
  | failed
deriving DecidableEq, Repr

/-- One entry of `get_resolution_configs` in video_app/utils/hls.py. -/
structure Resolution where
  name : String
  width : Nat
  height : Nat
  bitrate : String
deriving DecidableEq, Repr

/-- `get_resolution_configs` (hls.py): the five fixed HLS profiles. -/
def get_resolution_configs : List Resolution :=
  [ ⟨"120p", 214, 120, "300k"⟩,
    ⟨"360p", 640, 360, "800k"⟩,
    ⟨"480p", 854, 480, "1200k"⟩,
    ⟨"720p", 1280, 720, "2500k"⟩,
    ⟨"1080p", 1920, 1080, "5000k"⟩ ]

/-- Outcome of the external ffmpeg encoder per resolution name: exit code of
the subprocess, whether the subprocess timed out, and whether the manifest
file index.m3u8 exists in that resolution's output directory after the run
(the last is observed by nothing in hls.py; it is needed to state C3). -/
structure ConvEnv where
  exitCode : String → Int
  timeout : String → Bool
  manifestExists : String → Bool

/-- `handle_conversion_result` (hls.py): true iff the ffmpeg return code is 0. -/
def handle_conversion_result (returncode : Int) : Bool :=
  if returncode ≠ 0 then false else true

/-- `run_ffmpeg_conversion` (hls.py): a timeout yields false, otherwise the
result is handed to `handle_conversion_result`. -/
def run_ffmpeg_conversion (env : ConvEnv) (resolution_name : String) : Bool :=
  if env.timeout resolution_name then false
  else handle_conversion_result (env.exitCode resolution_name)

/-- `convert_single_resolution` (hls.py): builds the command and runs ffmpeg;
its value is exactly the value of `run_ffmpeg_conversion`. -/
def convert_single_resolution (env : ConvEnv) (resolution : Resolution) : Bool :=
  run_ffmpeg_conversion env resolution.name

/-- `process_all_resolutions` (hls.py): iterates all profiles, counting the
successful conversions. -/
def process_all_resolutions (env : ConvEnv) : Nat :=
  get_resolution_configs.foldl
    (fun acc r => if convert_single_resolution env r then acc + 1 else acc) 0

/-- The same loop as `process_all_resolutions`, instrumented to record, in
order, each profile attempted together with its conversion result. -/
def process_all_resolutions_trace (env : ConvEnv) : List (String × Bool) :=
  get_resolution_configs.foldl
    (fun acc r => acc ++ [(r.name, convert_single_resolution env r)]) []

/-- Relevant fields of the Video model instance. -/
structure VideoState where
  processing_status : PStatus
  hls_processed : Bool
  hls_path : Option String
  hasThumbnail : Bool
deriving DecidableEq, Repr

/-- `finalize_video_conversion` (hls.py): when at least one conversion
succeeded, sets hls_processed and hls_path and saves, returning true;
otherwise leaves the instance untouched and returns false. -/
def finalize_video_conversion (st : VideoState) (video_id : Nat)
    (success_count : Nat) : VideoState × Bool :=
  if success_count > 0 then
    ({ st with hls_processed := true,
               hls_path := some ("hls/" ++ toString video_id ++ "/") }, true)
  else
    (st, false)

/-- Filesystem facts consulted by `validate_video_instance` and
`prepare_video_conversion` (hls.py), plus the encoder outcomes. -/
structure HlsEnv where
  hasVideoFile : Bool
  fileExists : Bool
  fileReadable : Bool
  conv : ConvEnv

/-- `validate_video_file` (hls.py): existence and readability of the file. -/
def validate_video_file (env : HlsEnv) : Bool :=
  env.fileExists && env.fileReadable

/-- `validate_video_instance` (hls.py): true iff the instance has a video
file that exists and is readable. -/
def validate_video_instance (env : HlsEnv) : Bool :=
  env.hasVideoFile && validate_video_file env

/-- `convert_video_to_hls` (hls.py): prepares, runs all resolutions and
finalizes; returns the updated instance and the success flag. -/
def convert_video_to_hls (env : HlsEnv) (st : VideoState) (video_id : Nat) :
    VideoState × Bool :=
  if validate_video_instance env then
    finalize_video_conversion st video_id (process_all_resolutions env.conv)
  else
    (st, false)

/-- Outcomes of the effectful steps of `process_video_with_thumbnail`
(core.py): whether the Video row exists, the result of
`validate_video_for_processing`, the truthiness of `video_file`, and the
result of the thumbnail step (an exception inside it counts as false). -/
structure WorkerEnv where
  videoExists : Bool
  validationOk : Bool
  hasVideoFile : Bool
  thumbStepOk : Bool
  hls : HlsEnv

/-- Observable outcome of one worker run: the final instance state, the first
status value persisted during the run (none when nothing was persisted),
whether the HLS conversion step was invoked, the number of resolution
conversions that succeeded during the run, and the function's return value. -/
structure WorkerRun where
  st : VideoState
  firstPersisted : Option PStatus
  hlsInvoked : Bool
  successCount : Nat
  retval : Bool
deriving DecidableEq, Repr

/-- `process_video_with_thumbnail` (core.py): loads the row, persists
`processing`, validates, runs the thumbnail step, then — only when the
thumbnail step succeeded or the instance already has a thumbnail — the HLS
conversion, and persists `completed` exactly when both HLS and thumbnail
succeeded, `failed` otherwise. -/
def process_video_with_thumbnail (env : WorkerEnv) (video_id : Nat)
    (st0 : VideoState) : WorkerRun :=
  if env.videoExists = false then
    ⟨st0, none, false, 0, false⟩
  else
    let st1 : VideoState := { st0 with processing_status := .processing }
    if env.validationOk = false then
      ⟨{ st1 with processing_status := .failed }, some .processing, false, 0, false⟩
    else
      let thumbnail_success := env.hasVideoFile && env.thumbStepOk
      let st2 : VideoState :=
        if thumbnail_success then { st1 with hasThumbnail := true } else st1
      if thumbnail_success || st2.hasThumbnail then
        let res := convert_video_to_hls env.hls st2 video_id
        let nconv : Nat :=
          if validate_video_instance env.hls then process_all_resolutions env.hls.conv
          else 0
        if res.2 && thumbnail_success then
          ⟨{ res.1 with processing_status := .completed }, some .processing,
            true, nconv, true⟩
        else
          ⟨{ res.1 with processing_status := .failed }, some .processing,
            true, nconv, false⟩
      else
        ⟨{ st2 with processing_status := .failed }, some .processing, false, 0, false⟩

/-- Outcomes of the effectful steps of `queue_video_processing` (core.py):
the result of `validate_video_for_processing`, whether the RQ queue could be
accessed, the queue depth read there, and whether `queue.enqueue` raised. -/
structure EnqueueEnv where
  validationOk : Bool
  queueAccessOk : Bool
  queueLength : Nat
  enqueueRaises : Bool

/-- `queue_video_processing` (core.py): returns the persisted status, whether
a job was enqueued, and the boolean return value. On pre-processing
validation failure or queue access failure the status is persisted as
`failed`; when the queue holds more than 50 jobs the status is persisted as
`pending` and nothing is enqueued; when enqueue raises, the outer handler
persists `failed`; otherwise the job is enqueued and true returned. -/
def queue_video_processing (env : EnqueueEnv) (st0 : PStatus) :
    PStatus × Bool × Bool :=
  if env.validationOk = false then (.failed, false, false)
  else if env.queueAccessOk = false then (.failed, false, false)
  else if env.queueLength > 50 then (.pending, false, false)
  else if env.enqueueRaises then (.failed, false, false)
  else (st0, true, true)

/-- `process_video` post_save signal handler (signals.py), on the
`created = true` path: skips instances without a file or already
processing/completed; otherwise re-persists `pending` when pending, calls
`queue_video_processing`, and on a false return persists `failed`. Returns
the final persisted status and whether a job was enqueued. -/
def process_video (env : EnqueueEnv) (hasVideoFile : Bool) (st0 : PStatus) :
    PStatus × Bool :=
  if hasVideoFile = false then (st0, false)
  else if st0 = .processing ∨ st0 = .completed then (st0, false)
  else
    let st1 : PStatus := if st0 = .pending then .pending else st0
    let q := queue_video_processing env st1
    if q.2.2 then (q.1, q.2.1) else (.failed, q.2.1)

/-- `handle_video_processing_queue` (core.py): calls
`queue_video_processing` and returns a `failed` status only when that call
raises; `queue_video_processing` contains all its errors and never raises,
so the returned failed-status is always none. Returns the persisted status,
whether a job was enqueued, and the failed-status handed to the caller. -/
def handle_video_processing_queue (env : EnqueueEnv) (st : PStatus) :
    PStatus × Bool × Option PStatus :=
  let q := queue_video_processing env st
  (q.1, q.2.1, none)

/-- `Video.save()` on a new instance with a video file (models.py): runs
`handle_new_video_save` (pre-processing validation; on failure persists
`failed` and returns without enqueueing), then `super().save()` — whose
synchronous post_save signal runs `process_video` — and then
`handle_video_processing_queue`, persisting the failed-status it returns
when there is one. Returns the final persisted status and whether any job
was enqueued along the way. -/
def video_save (env : EnqueueEnv) (preValidationOk hasVideoFile : Bool)
    (st0 : PStatus) : PStatus × Bool :=
  if hasVideoFile = false then (st0, false)
  else if preValidationOk = false then (.failed, false)
  else
    let sig := process_video env hasVideoFile st0
    let h := handle_video_processing_queue env sig.1
    match h.2.2 with
    | some s => (s, sig.2 || h.2.1)
    | none => (h.1, sig.2 || h.2.1)

/-- State of the instance's thumbnail field and its backing file, as read by
`_process_video_thumbnail` (core.py): the field's name (the Django FieldFile
and its name are truthy iff the name is nonempty), whether the storage
exposes a path, whether the file exists on disk, and whether its size is
positive. -/
structure ThumbState where
  name : String
  hasPath : Bool
  onDisk : Bool
  sizePos : Bool
deriving DecidableEq, Repr

/-- The short-circuit test of `_process_video_thumbnail`: a truthy thumbnail
field whose backing file exists on disk with positive size. -/
def thumbValid (st : ThumbState) : Bool :=
  decide (st.name ≠ "") && st.hasPath && st.onDisk && st.sizePos

/-- Outcomes of the effectful steps of the thumbnail pipeline (ffmpeg.py):
whether the source video file is present, exists and is readable; per
(attempt, timestamp index) whether `generate_video_thumbnail` produced a
non-empty frame there; whether saving the generated thumbnail to the
instance succeeded; whether Pillow is importable; and whether saving the
default placeholder succeeded. -/
structure ThumbEnv where
  videoFileOk : Bool
  extract : Nat → Nat → Bool
  saveOk : Bool
  pillowAvailable : Bool
  defaultSaveOk : Bool

/-- Thumbnail field state after `thumbnail.save(...)` of a generated frame in
`generate_video_thumbnail_for_instance`. -/
def savedThumb (st : ThumbState) : ThumbState :=
  { st with name := "video_thumbnail.jpg", hasPath := true, onDisk := true,
            sizePos := true }

/-- Thumbnail field state after `thumbnail.save(...)` in
`create_default_thumbnail` (a 320x180 JPEG is always non-empty). -/
def savedDefaultThumb (st : ThumbState) (video_id : Nat) : ThumbState :=
  { st with name := "default_thumbnail_" ++ toString video_id ++ ".jpg",
            hasPath := true, onDisk := true, sizePos := true }

/-- `generate_video_thumbnail_for_instance` (ffmpeg.py) at retry attempt `a`:
fails when the video file is missing or unreadable; otherwise tries the four
timestamps 10s, 5s, 2s, 1s in order, and on the first non-empty frame saves
it to the instance (a failing save yields false with the field unchanged);
when every timestamp fails, returns false. -/
def generate_video_thumbnail_for_instance (env : ThumbEnv) (a : Nat)
    (st : ThumbState) : Bool × ThumbState :=
  if env.videoFileOk = false then (false, st)
  else if (List.range 4).any (fun t => env.extract a t) then
    if env.saveOk then (true, savedThumb st) else (false, st)
  else (false, st)

/-- `create_default_thumbnail` (ffmpeg.py): fails when Pillow is missing or
the save raises; otherwise renders the placeholder and saves it. -/
def create_default_thumbnail (env : ThumbEnv) (video_id : Nat)
    (st : ThumbState) : Bool × ThumbState :=
  if env.pillowAvailable = false then (false, st)
  else if env.defaultSaveOk then (true, savedDefaultThumb st video_id)
  else (false, st)

/-- Observable outcome of one `_process_video_thumbnail` run: the return
value, how many generation attempts were performed, whether
`create_default_thumbnail` was invoked, and the final thumbnail state. -/
structure ThumbRun where
  ok : Bool
  genCalls : Nat
  defaultInvoked : Bool
  st : ThumbState
deriving DecidableEq, Repr

/-- `_process_video_thumbnail` (core.py): short-circuits with success when a
valid thumbnail already exists; otherwise makes up to `max_retries = 3`
generation attempts (a failed attempt leaves the field unchanged), and when
all fail falls back to `create_default_thumbnail`. -/
def process_video_thumbnail (env : ThumbEnv) (video_id : Nat)
    (st : ThumbState) : ThumbRun :=
  if thumbValid st then ⟨true, 0, false, st⟩
  else
    match (List.range 3).find? (fun i => (generate_video_thumbnail_for_instance env (i + 1) st).1) with
    | some i =>
        ⟨true, i + 1, false, (generate_video_thumbnail_for_instance env (i + 1) st).2⟩
    | none =>
        let d := create_default_thumbnail env video_id st
        ⟨d.1, 3, true, d.2⟩

/-- Filesystem facts and deletion outcomes consulted by the `post_delete`
cleanup path (signals.py, file_utils.py): truthiness of the video file and
thumbnail fields, whether the underlying storage deletes raise, the
instance's hls_path, whether the HLS directory exists, and whether
`shutil.rmtree` raises. -/
structure DeleteEnv where
  hasVideoFile : Bool
  videoDeleteRaises : Bool
  hasThumbnail : Bool
  thumbDeleteRaises : Bool
  hls_path : Option String
  hlsDirExists : Bool
  rmtreeRaises : Bool

/-- `cleanup_video_file` (signals.py): attempts the storage delete when the
field is truthy, swallowing any exception; returns whether the underlying
delete was attempted (the function itself never raises). -/
def cleanup_video_file (env : DeleteEnv) : Bool :=
  env.hasVideoFile

/-- `cleanup_thumbnail_file` (signals.py): same containment for the
thumbnail field. -/
def cleanup_thumbnail_file (env : DeleteEnv) : Bool :=
  env.hasThumbnail

/-- `remove_hls_directory` (file_utils.py): true iff `shutil.rmtree`
succeeded; an exception is caught and false returned. -/
def remove_hls_directory (env : DeleteEnv) : Bool :=
  !env.rmtreeRaises

/-- `cleanup_hls_files` (file_utils.py): (whether a directory removal was
attempted, the boolean return value). With no hls_path or no existing
directory it returns true without attempting anything. -/
def cleanup_hls_files (env : DeleteEnv) : Bool × Bool :=
  match env.hls_path with
  | none => (false, true)
  | some _ =>
      if env.hlsDirExists then (true, remove_hls_directory env) else (false, true)

/-- Whether the underlying video file delete succeeded (no file to delete
counts as success). -/
def video_delete_succeeded (env : DeleteEnv) : Bool :=
  !env.hasVideoFile || !env.videoDeleteRaises

/-- Whether the underlying thumbnail delete succeeded. -/
def thumb_delete_succeeded (env : DeleteEnv) : Bool :=
  !env.hasThumbnail || !env.thumbDeleteRaises

/-- Observable outcome of the `delete_video_files` post_delete handler:
which of the three underlying removals were attempted, the
`cleanup_results` dict (video_file, thumbnail, hls_files) the summary is
computed from, and whether a summary line was logged. -/
structure DeleteRun where
  videoAttempted : Bool
  thumbAttempted : Bool
  hlsAttempted : Bool
  summary : Bool × Bool × Bool
  summaryLogged : Bool
deriving DecidableEq, Repr

/-- `delete_video_files` (signals.py): wraps each of the three cleanups in
its own try/except and records true in `cleanup_results` when the wrapped
call returns without raising; since all three helpers contain their own
errors (and the boolean returned by `cleanup_hls_files` is never read), every
entry is recorded true and the summary is always logged. -/
def delete_video_files (env : DeleteEnv) : DeleteRun :=
  let videoAttempted := cleanup_video_file env
  let thumbAttempted := cleanup_thumbnail_file env
  let hls := cleanup_hls_files env
  ⟨videoAttempted, thumbAttempted, hls.1, (true, true, true), true⟩

/-- The extension part of `os.path.splitext(name)`: the suffix of the
basename from its last dot, unless every character of the basename before
that dot is itself a dot (leading dots do not start an extension). -/
def splitext_extension (name : String) : String :=
  let base := (name.data.reverse.takeWhile (fun c => c ≠ '/')).reverse
  let afterDotRev := base.reverse.takeWhile (fun c => c ≠ '.')
  if afterDotRev.length = base.length then ""
  else
    let d := base.length - afterDotRev.length - 1
    if (base.take d).any (fun c => c ≠ '.') then String.mk (base.drop d) else ""

/-- `os.path.splitext(file.name)[1].lower().lstrip('.')` as computed in
`comprehensive_video_validator` (validators.py); lowercasing is per
character, which agrees with Python on the ASCII extensions compared here. -/
def file_extension_of (name : String) : String :=
  String.mk (((splitext_extension name).data.map Char.toLower).dropWhile
    (fun c => c = '.'))

/-- The `allowed_extensions` list of `comprehensive_video_validator`. -/
def allowed_extensions : List String :=
  ["mp4", "avi", "mov", "mkv"]

/-- `max_size = 100.5 * 1024 * 1024` in validators.py; the float value is
exactly the integer 105381888, so a rational models it exactly. -/
def max_size : ℚ :=
  105381888

/-- The distinct ValidationError messages `comprehensive_video_validator` can
raise, one constructor per raise site. -/
inductive VErr where
  | noFile
  | emptyFile
  | tooLarge
  | unsupportedFormat
  | systemUnavailable
  | systemNotResponding
  | systemNotInstalled
  | validationTimeout
  | corruptedFile
  | noVideoStreams
  | noValidDuration
  | tooLong
  | tooShort
  | invalidDimensions
  | resolutionTooHigh
  | resolutionTooLow
  | cannotAnalyze
  | unexpected
deriving DecidableEq, Repr

/-- One entry of the ffprobe `streams` array. -/
structure StreamInfo where
  codec_type : String
  width : Int
  height : Int
deriving DecidableEq, Repr

/-- The uploaded file object as seen by the validator: its truthiness, size
in bytes, name, and whether it supports seek. -/
structure UploadFile where
  present : Bool
  size : Nat
  name : String
  canSeek : Bool
deriving DecidableEq, Repr

/-- Outcomes of the external probes run by `comprehensive_video_validator`:
the `ffmpeg -version` check (binary found, timed out, exit code zero),
whether writing the temporary copy raised an unexpected exception, the
ffprobe run (timed out, exit code zero, output parsed as JSON), and the
probe data (streams, container duration in seconds). -/
structure ValidatorEnv where
  ffmpegFound : Bool
  ffmpegTimeout : Bool
  ffmpegExitZero : Bool
  unexpectedError : Bool
  probeTimeout : Bool
  probeExitZero : Bool
  jsonOk : Bool
  streams : List StreamInfo
  duration : ℚ

/-- The raising body of `comprehensive_video_validator` (validators.py),
checks in source order: file truthy; size nonzero; size at most
`max_size`; extension allowed (the content-type check only warns); ffmpeg
present, responsive and exiting zero; temporary copy written; ffprobe not
timing out, exiting zero, output parseable; at least one stream of
codec_type video; duration positive, at most 7200 and at least 1; first
video stream's dimensions positive, at most 3840x2160 and at least 320x240. -/
def comprehensive_core (f : UploadFile) (env : ValidatorEnv) : Except VErr Unit :=
  if f.present = false then .error .noFile
  else if f.size = 0 then .error .emptyFile
  else if (f.size : ℚ) > max_size then .error .tooLarge
  else if (allowed_extensions.contains (file_extension_of f.name)) = false then
    .error .unsupportedFormat
  else if env.ffmpegFound = false then .error .systemNotInstalled
  else if env.ffmpegTimeout then .error .systemNotResponding
  else if env.ffmpegExitZero = false then .error .systemUnavailable
  else if env.unexpectedError then .error .unexpected
  else if env.probeTimeout then .error .validationTimeout
  else if env.probeExitZero = false then .error .corruptedFile
  else if env.jsonOk = false then .error .cannotAnalyze
  else
    match env.streams.filter (fun s => s.codec_type = "video") with
    | [] => .error .noVideoStreams
    | vs :: _ =>
      if env.duration ≤ 0 then .error .noValidDuration
      else if env.duration > 7200 then .error .tooLong
      else if env.duration < 1 then .error .tooShort
      else if vs.width ≤ 0 ∨ vs.height ≤ 0 then .error .invalidDimensions
      else if vs.width > 3840 ∨ vs.height > 2160 then .error .resolutionTooHigh
      else if vs.width < 320 ∨ vs.height < 240 then .error .resolutionTooLow
      else .ok ()

/-- Whether control reaches the chunk-reading of the temporary copy, i.e.
all checks before the deep probe passed (the read consumes the stream). -/
def reaches_read (f : UploadFile) (env : ValidatorEnv) : Bool :=
  f.present && !(f.size = 0) && !((f.size : ℚ) > max_size) &&
    allowed_extensions.contains (file_extension_of f.name) &&
    env.ffmpegFound && !env.ffmpegTimeout && env.ffmpegExitZero

/-- `comprehensive_video_validator` (validators.py) with the read position of
the upload stream made explicit: every exit path — the success return, the
re-raise of a ValidationError, and the wrapping of an unexpected exception —
first calls `file.seek(0)` when the file supports seek. Returns the result
and the final read position. -/
def comprehensive_video_validator (f : UploadFile) (env : ValidatorEnv)
    (pos : Nat) : Except VErr Unit × Nat :=
  let r := comprehensive_core f env
  let posAfter := if reaches_read f env then f.size else pos
  (r, if f.canSeek then 0 else posAfter)

/-! ## Concrete inputs used by counterexamples and witnesses -/

/-- Counterexample input for C3: the encoder exits zero for every profile but
no manifest file is present afterwards. -/
def c3_env : ConvEnv :=
  ⟨fun _ => 0, fun _ => false, fun _ => false⟩

/-- The 120p profile, first entry of `get_resolution_configs`. -/
def c3_res : Resolution :=
  ⟨"120p", 214, 120, "300k"⟩

/-- Witness input for C2: the 360p conversion exits with code 1, the other
four profiles exit zero. -/
def c2_wenv : ConvEnv :=
  ⟨fun n => if n = "360p" then 1 else 0, fun _ => false, fun _ => true⟩

/-- Witness input for C2: a fresh asset state. -/
def c2_wst : VideoState :=
  ⟨.pending, false, none, false⟩

/-- An encoder environment in which every profile converts successfully. -/
def conv_all_ok : ConvEnv :=
  ⟨fun _ => 0, fun _ => false, fun _ => true⟩

/-- An HLS environment with a present, existing, readable source file and a
fully successful encoder. -/
def hls_ok : HlsEnv :=
  ⟨true, true, true, conv_all_ok⟩

/-- Witness input for C1: every stage succeeds. -/
def c1_wenv : WorkerEnv :=
  ⟨true, true, true, true, hls_ok⟩

/-- Witness input for C1: a fresh asset. -/
def c1_wst : VideoState :=
  ⟨.pending, false, none, false⟩

/-- Counterexample input for C6: the thumbnail step fails but the instance
already carries a thumbnail reference, and HLS conversion would succeed. -/
def c6_cenv : WorkerEnv :=
  ⟨true, true, true, false, hls_ok⟩

/-- Counterexample input for C6: an asset whose thumbnail field is truthy. -/
def c6_cst : VideoState :=
  ⟨.pending, false, none, true⟩

/-- Witness input for C5: validation passes, the queue is reachable and
holds 51 pending jobs (over the back-pressure threshold of 50). -/
def c5_env : EnqueueEnv :=
  ⟨true, true, 51, false⟩

/-- Failing input for C9: all three fields are populated and every
underlying removal (video file delete, thumbnail delete, rmtree) fails. -/
def c9_env : DeleteEnv :=
  ⟨true, true, true, true, some "hls/7/", true, true⟩

/-- Witness/counterexample inputs for C7 and C8. -/
def c7_wst : ThumbState :=
  ⟨"existing_thumbnail.jpg", true, true, true⟩

/-- A thumbnail environment whose frame extraction succeeds at the first
attempt and timestamp and whose saves succeed. -/
def thumb_gen_ok : ThumbEnv :=
  ⟨true, fun _ _ => true, true, true, true⟩

/-- A state with no thumbnail at all. -/
def thumb_st_none : ThumbState :=
  ⟨"", false, false, false⟩

/-- Counterexample input for C8: every frame extraction fails and Pillow is
unavailable, so the default placeholder cannot be created either. -/
def c8_cenv : ThumbEnv :=
  ⟨true, fun _ _ => false, true, false, true⟩

/-- Witness input for C8 (amended): every frame extraction fails but Pillow
is available and the placeholder save succeeds. -/
def c8_wenv : ThumbEnv :=
  ⟨true, fun _ _ => false, true, true, true⟩

/-- A 720p video stream. -/
def stream_ok : StreamInfo :=
  ⟨"video", 1280, 720⟩

/-- A well-formed upload: present, 1000 bytes, mp4, seekable. -/
def c4_file_ok : UploadFile :=
  ⟨true, 1000, "movie.mp4", true⟩

/-- A validator environment in which every external probe succeeds and the
file is a 60-second 720p video. -/
def c4_env_ok : ValidatorEnv :=
  ⟨true, false, true, false, false, true, true, [stream_ok], 60⟩

/-- Boundary input: a zero-byte upload. -/
def c4_file_empty : UploadFile :=
  { c4_file_ok with size := 0 }

/-- Boundary input: one byte over the 100.5 MB limit. -/
def c4_file_large : UploadFile :=
  { c4_file_ok with size := 105381889 }

/-- Boundary input: a disallowed extension. -/
def c4_file_badext : UploadFile :=
  { c4_file_ok with name := "movie.txt" }

/-- Boundary input: a null upload (falsy file object). -/
def c4_file_null : UploadFile :=
  ⟨false, 0, "movie.txt", true⟩

/-- Order input: empty file with a disallowed extension. -/
def c4_file_empty_badext : UploadFile :=
  ⟨true, 0, "movie.txt", true⟩

/-- Boundary input: zero-second duration. -/
def c4_env_dur0 : ValidatorEnv :=
  { c4_env_ok with duration := 0 }

/-- Boundary input: 7201-second duration. -/
def c4_env_dur7201 : ValidatorEnv :=
  { c4_env_ok with duration := 7201 }

/-- Boundary input: a 320x239 stream (height below the minimum). -/
def c4_env_h239 : ValidatorEnv :=
  { c4_env_ok with streams := [⟨"video", 320, 239⟩] }

/-- Boundary input: a 3841x720 stream (width above the maximum). -/
def c4_env_w3841 : ValidatorEnv :=
  { c4_env_ok with streams := [⟨"video", 3841, 720⟩] }

/-- Order input: ffmpeg binary missing. -/
def c4_env_noffmpeg : ValidatorEnv :=
  { c4_env_ok with ffmpegFound := false }

/-- Order input: no video streams and a zero duration. -/
def c4_env_nostream_dur0 : ValidatorEnv :=
  { c4_env_ok with streams := [], duration := 0 }

/-- Order input: a zero duration and out-of-range dimensions. -/
def c4_env_dur0_baddims : ValidatorEnv :=
  { c4_env_ok with duration := 0, streams := [⟨"video", 3841, 239⟩] }

/-- Witness input for C10: a seekable upload. -/
def c10_file : UploadFile :=
  ⟨true, 5, "clip.mov", true⟩

/-- Witness input for C10: an environment in which the deep probe fails. -/
def c10_env : ValidatorEnv :=
  ⟨true, false, true, false, false, false, true, [], 0⟩

/-! ## Helper lemmas -/

/-- Counting fold equals `countP`, shifted by the accumulator. -/
theorem foldl_count_eq {α : Type} (p : α → Bool) (l : List α) (n : Nat) :
    l.foldl (fun acc r => if p r then acc + 1 else acc) n = n + l.countP p := by
  induction l generalizing n with
  | nil => simp
  | cons a l ih =>
      simp only [List.foldl_cons, List.countP_cons, ih]
      cases h : p a
      · simp
      · simp
        omega

/-- Decidable equality of validator results. -/
instance : DecidableEq (Except VErr Unit) := fun a b =>
  match a, b with
  | .ok (), .ok () => isTrue rfl
  | .error e1, .error e2 =>
      if h : e1 = e2 then isTrue (by rw [h])
      else isFalse (fun hc => h (by injection hc))
  | .ok _, .error _ => isFalse (fun hc => Except.noConfusion hc)
  | .error _, .ok _ => isFalse (fun hc => Except.noConfusion hc)

/-- A boolean that is not false is true. -/
theorem bool_eq_true_of_ne_false {b : Bool} (h : ¬ b = false) : b = true := by
  cases b
  · exact absurd rfl h
  · rfl

/-- A boolean that is not true is false. -/
theorem bool_eq_false_of_ne_true {b : Bool} (h : ¬ b = true) : b = false := by
  cases b
  · rfl
  · exact absurd rfl h

/-! ## Claims -/

/-- C3 (counterexample): with exit code 0 and no manifest on disk,
`convert_single_resolution` still returns true, so the return value is not
equivalent to (exit zero AND manifest exists). -/
theorem convert_single_resolution_manifest_counterexample :
    ¬ (convert_single_resolution c3_env c3_res = true ↔
        (c3_env.timeout c3_res.name = false ∧ c3_env.exitCode c3_res.name = 0 ∧
         c3_env.manifestExists c3_res.name = true)) := by
  decide

/-- C3 (amended): `convert_single_resolution` returns true iff the encoder
subprocess did not time out and exited with code zero; the existence of the
manifest file index.m3u8 is never checked. A non-zero exit or a timeout
yields false for that profile. -/
theorem convert_single_resolution_iff_exit_zero (env : ConvEnv)
    (resolution : Resolution) :
    convert_single_resolution env resolution = true ↔
      (env.timeout resolution.name = false ∧ env.exitCode resolution.name = 0) := by
  simp only [convert_single_resolution, run_ffmpeg_conversion,
    handle_conversion_result]
  cases h : env.timeout resolution.name <;> simp [h]

/-- C2: `process_all_resolutions` returns exactly the number of profiles
whose individual conversion returned true; the instrumented loop shows every
one of the five profiles is attempted in order regardless of earlier
failures, and its success count agrees; and for a fresh asset,
`finalize_video_conversion` leaves `hls_processed` true iff the success
count is positive. -/
theorem process_all_resolutions_spec (env : ConvEnv) (st : VideoState)
    (video_id : Nat) (h : st.hls_processed = false) :
    process_all_resolutions env
        = get_resolution_configs.countP (fun r => convert_single_resolution env r)
    ∧ (process_all_resolutions_trace env).map Prod.fst
        = get_resolution_configs.map Resolution.name
    ∧ process_all_resolutions env
        = (process_all_resolutions_trace env).countP (fun x => x.2)
    ∧ ((finalize_video_conversion st video_id
          (process_all_resolutions env)).1.hls_processed = true
        ↔ 0 < process_all_resolutions env) := by
  refine ⟨?_, ?_, ?_, ?_⟩
  · simpa using foldl_count_eq (fun r => convert_single_resolution env r)
      get_resolution_configs 0
  · rfl
  · simp only [process_all_resolutions, process_all_resolutions_trace,
      get_resolution_configs, List.foldl_cons, List.foldl_nil]
    cases h1 : convert_single_resolution env ⟨"120p", 214, 120, "300k"⟩ <;>
      cases h2 : convert_single_resolution env ⟨"360p", 640, 360, "800k"⟩ <;>
        cases h3 : convert_single_resolution env ⟨"480p", 854, 480, "1200k"⟩ <;>
          cases h4 : convert_single_resolution env ⟨"720p", 1280, 720, "2500k"⟩ <;>
            cases h5 : convert_single_resolution env ⟨"1080p", 1920, 1080, "5000k"⟩ <;>
              rfl
  · unfold finalize_video_conversion
    split
    · simpa using by omega
    · simp [h]
      omega

/-- Witness for C2 at a concrete environment in which the 360p conversion
fails and the other four succeed. -/
theorem process_all_resolutions_spec_witness :
    process_all_resolutions c2_wenv
        = get_resolution_configs.countP (fun r => convert_single_resolution c2_wenv r)
    ∧ (process_all_resolutions_trace c2_wenv).map Prod.fst
        = get_resolution_configs.map Resolution.name
    ∧ process_all_resolutions c2_wenv
        = (process_all_resolutions_trace c2_wenv).countP (fun x => x.2)
    ∧ ((finalize_video_conversion c2_wst 7
          (process_all_resolutions c2_wenv)).1.hls_processed = true
        ↔ 0 < process_all_resolutions c2_wenv) :=
  process_all_resolutions_spec c2_wenv c2_wst 7 rfl

/-- C1: for every worker run on an existing video row, the first status
persisted is `processing`; the run ends with the status persisted as
`completed` iff the thumbnail step succeeded and at least one resolution
conversion succeeded during the run, and as `failed` otherwise — in
particular no run leaves the persisted status equal to `processing`. -/
theorem process_video_with_thumbnail_spec (env : WorkerEnv) (video_id : Nat)
    (st0 : VideoState) (h : env.videoExists = true) :
    (process_video_with_thumbnail env video_id st0).firstPersisted
        = some .processing
    ∧ ((process_video_with_thumbnail env video_id st0).st.processing_status
          = .completed
        ↔ ((env.hasVideoFile && env.thumbStepOk) = true
            ∧ 0 < (process_video_with_thumbnail env video_id st0).successCount))
    ∧ ((process_video_with_thumbnail env video_id st0).st.processing_status
          = .completed
        ∨ (process_video_with_thumbnail env video_id st0).st.processing_status
          = .failed) := by
  obtain ⟨ve, vo, hvf, ts, hlsE⟩ := env
  obtain ⟨ps, hpr, hpath, hth⟩ := st0
  simp only at h
  subst h
  cases vo <;> cases hvf <;> cases ts <;> cases hth <;>
    cases hvv : validate_video_instance hlsE <;>
      rcases hn : process_all_resolutions hlsE.conv with _ | n <;>
        simp_all [process_video_with_thumbnail, convert_video_to_hls,
          finalize_video_conversion]

/-- Witness for C1: a run in which every stage succeeds ends `completed`. -/
theorem process_video_with_thumbnail_spec_witness :
    (process_video_with_thumbnail c1_wenv 7 c1_wst).firstPersisted
        = some .processing
    ∧ ((process_video_with_thumbnail c1_wenv 7 c1_wst).st.processing_status
          = .completed
        ↔ ((c1_wenv.hasVideoFile && c1_wenv.thumbStepOk) = true
            ∧ 0 < (process_video_with_thumbnail c1_wenv 7 c1_wst).successCount))
    ∧ ((process_video_with_thumbnail c1_wenv 7 c1_wst).st.processing_status
          = .completed
        ∨ (process_video_with_thumbnail c1_wenv 7 c1_wst).st.processing_status
          = .failed) :=
  process_video_with_thumbnail_spec c1_wenv 7 c1_wst rfl

/-- C6 (counterexample): with a failing thumbnail step but a pre-existing
thumbnail reference on the instance, the HLS conversion step is invoked, so
HLS is not gated on the thumbnail step's success alone. -/
theorem process_video_hls_gate_counterexample :
    (process_video_with_thumbnail c6_cenv 1 c6_cst).hlsInvoked = true
    ∧ (c6_cenv.hasVideoFile && c6_cenv.thumbStepOk) = false := by
  decide

/-- C6 (amended): the HLS conversion step is invoked exactly when the run
reaches the conversion stage (row loaded and validation passed) and either
the thumbnail step succeeded or the instance carries a thumbnail reference;
in particular HLS is never attempted for an asset with neither a successful
thumbnail step nor an existing thumbnail. -/
theorem process_video_with_thumbnail_hls_gate (env : WorkerEnv)
    (video_id : Nat) (st0 : VideoState) :
    (process_video_with_thumbnail env video_id st0).hlsInvoked
      = (env.videoExists && env.validationOk &&
          ((env.hasVideoFile && env.thumbStepOk) || st0.hasThumbnail)) := by
  obtain ⟨ve, vo, hvf, ts, hlsE⟩ := env
  obtain ⟨ps, hpr, hpath, hth⟩ := st0
  cases ve <;> cases vo <;> cases hvf <;> cases ts <;> cases hth <;>
    cases hvv : validate_video_instance hlsE <;>
      rcases hn : process_all_resolutions hlsE.conv with _ | n <;>
        simp_all [process_video_with_thumbnail, convert_video_to_hls,
          finalize_video_conversion]

/-- The placeholder filename written by `create_default_thumbnail` is never
the empty string. -/
theorem default_thumb_name_ne (video_id : Nat) :
    ("default_thumbnail_" ++ toString video_id ++ ".jpg" : String) ≠ "" := by
  intro hcontra
  have h1 : ("default_thumbnail_" ++ toString video_id ++ ".jpg" : String).length = 0 := by
    rw [hcontra]
    rfl
  have h2 : ("default_thumbnail_" : String).length = 18 := rfl
  rw [String.length_append, String.length_append] at h1
  omega

/-- A generation attempt that reports success has saved the generated frame
to the instance. -/
theorem gen_ok_saved (env : ThumbEnv) (a : Nat) (st : ThumbState)
    (h : (generate_video_thumbnail_for_instance env a st).1 = true) :
    (generate_video_thumbnail_for_instance env a st).2 = savedThumb st := by
  by_cases h1 : env.videoFileOk = false
  · rw [generate_video_thumbnail_for_instance, if_pos h1] at h
    simp at h
  · by_cases h2 : ((List.range 4).any (fun t => env.extract a t)) = true
    · by_cases h3 : env.saveOk = true
      · rw [generate_video_thumbnail_for_instance, if_neg h1, if_pos h2, if_pos h3]
      · rw [generate_video_thumbnail_for_instance, if_neg h1, if_pos h2, if_neg h3] at h
        simp at h
    · rw [generate_video_thumbnail_for_instance, if_neg h1, if_neg h2] at h
      simp at h

/-- A default-placeholder creation that reports success has saved the
placeholder to the instance. -/
theorem default_ok_saved (env : ThumbEnv) (video_id : Nat) (st : ThumbState)
    (h : (create_default_thumbnail env video_id st).1 = true) :
    (create_default_thumbnail env video_id st).2 = savedDefaultThumb st video_id := by
  by_cases h1 : env.pillowAvailable = false
  · rw [create_default_thumbnail, if_pos h1] at h
    simp at h
  · by_cases h2 : env.defaultSaveOk = true
    · rw [create_default_thumbnail, if_neg h1, if_pos h2]
    · rw [create_default_thumbnail, if_neg h1, if_neg h2] at h
      simp at h

/-- A successful thumbnail run always leaves a valid thumbnail on the
instance: either the pre-existing one, the saved generated frame, or the
saved default placeholder. -/
theorem process_video_thumbnail_ok_valid (env : ThumbEnv) (video_id : Nat)
    (st : ThumbState)
    (h : (process_video_thumbnail env video_id st).ok = true) :
    thumbValid (process_video_thumbnail env video_id st).st = true := by
  by_cases hv : thumbValid st = true
  · simp [process_video_thumbnail, hv]
  · rw [process_video_thumbnail] at h ⊢
    rw [if_neg hv] at h ⊢
    cases hf : (List.range 3).find?
        (fun i => (generate_video_thumbnail_for_instance env (i + 1) st).1) with
    | some i =>
        have hp0 := List.find?_some hf
        have hp : (generate_video_thumbnail_for_instance env (i + 1) st).1 = true := hp0
        show thumbValid (generate_video_thumbnail_for_instance env (i + 1) st).2 = true
        rw [gen_ok_saved env (i + 1) st hp]
        simp [thumbValid, savedThumb]
    | none =>
        rw [hf] at h
        have h' : (create_default_thumbnail env video_id st).1 = true := h
        show thumbValid (create_default_thumbnail env video_id st).2 = true
        rw [default_ok_saved env video_id st h']
        simp [thumbValid, savedDefaultThumb, default_thumb_name_ne]

/-- C7: the thumbnail step is idempotent. On an asset whose thumbnail field
is truthy and whose backing file exists with positive size it returns
success immediately, performing zero generation attempts and leaving the
state unchanged; and after any successful run, a second run is such a
no-op. -/
theorem process_video_thumbnail_idempotent (env env2 : ThumbEnv)
    (video_id : Nat) (st : ThumbState) :
    (thumbValid st = true →
      process_video_thumbnail env video_id st = ⟨true, 0, false, st⟩)
    ∧ ((process_video_thumbnail env video_id st).ok = true →
        process_video_thumbnail env2 video_id
            (process_video_thumbnail env video_id st).st
          = ⟨true, 0, false, (process_video_thumbnail env video_id st).st⟩) := by
  constructor
  · intro hv
    simp [process_video_thumbnail, hv]
  · intro hok
    have hvalid := process_video_thumbnail_ok_valid env video_id st hok
    generalize hR : process_video_thumbnail env video_id st = r at hvalid ⊢
    rw [process_video_thumbnail]
    simp [hvalid]

/-- Witness for C7: a valid existing thumbnail short-circuits, and a second
run after a successful generating run is a success returning no-op. -/
theorem process_video_thumbnail_idempotent_witness :
    process_video_thumbnail thumb_gen_ok 3 c7_wst = ⟨true, 0, false, c7_wst⟩
    ∧ process_video_thumbnail thumb_gen_ok 3
          (process_video_thumbnail thumb_gen_ok 3 thumb_st_none).st
        = ⟨true, 0, false, (process_video_thumbnail thumb_gen_ok 3 thumb_st_none).st⟩ :=
  ⟨(process_video_thumbnail_idempotent thumb_gen_ok thumb_gen_ok 3 c7_wst).1
      (by decide),
   (process_video_thumbnail_idempotent thumb_gen_ok thumb_gen_ok 3 thumb_st_none).2
      (by decide)⟩

/-- C8 (counterexample): when frame extraction fails at every timestamp of
every attempt and Pillow is unavailable, `create_default_thumbnail` is
invoked but fails, and the thumbnail step completes returning false with the
asset still having no thumbnail. -/
theorem create_default_thumbnail_counterexample :
    (process_video_thumbnail c8_cenv 1 thumb_st_none).defaultInvoked = true
    ∧ (process_video_thumbnail c8_cenv 1 thumb_st_none).ok = false
    ∧ (process_video_thumbnail c8_cenv 1 thumb_st_none).st.name = "" := by
  decide

/-- C8 (amended): when the asset has no valid thumbnail and frame extraction
fails at all timestamps of all bounded retry attempts,
`create_default_thumbnail` is invoked; when Pillow is available and the save
succeeds, it produces a non-empty placeholder saved to the thumbnail field
and the step reports success. -/
theorem create_default_thumbnail_fallback (env : ThumbEnv) (video_id : Nat)
    (st : ThumbState) (hv : thumbValid st = false)
    (hx : ∀ a t, env.extract a t = false) :
    (process_video_thumbnail env video_id st).defaultInvoked = true
    ∧ ((env.pillowAvailable && env.defaultSaveOk) = true →
        (process_video_thumbnail env video_id st).ok = true
        ∧ thumbValid (process_video_thumbnail env video_id st).st = true
        ∧ (process_video_thumbnail env video_id st).st.name ≠ "") := by
  have hgen : ∀ a, (generate_video_thumbnail_for_instance env a st).1 = false := by
    intro a
    rw [generate_video_thumbnail_for_instance]
    cases hvf : env.videoFileOk <;> simp [hvf, hx]
  have hfind : (List.range 3).find?
      (fun i => (generate_video_thumbnail_for_instance env (i + 1) st).1) = none := by
    simp [List.find?_eq_none, hgen]
  have hvne : ¬ thumbValid st = true := by simp [hv]
  rw [process_video_thumbnail, if_neg hvne, hfind]
  refine ⟨rfl, ?_⟩
  intro hpd
  obtain ⟨hp, hd⟩ : env.pillowAvailable = true ∧ env.defaultSaveOk = true := by
    simpa using hpd
  have hp' : ¬ env.pillowAvailable = false := by simp [hp]
  have hrec : create_default_thumbnail env video_id st
      = (true, savedDefaultThumb st video_id) := by
    rw [create_default_thumbnail, if_neg hp', if_pos hd]
  refine ⟨?_, ?_, ?_⟩
  · show (create_default_thumbnail env video_id st).1 = true
    rw [hrec]
  · show thumbValid (create_default_thumbnail env video_id st).2 = true
    rw [hrec]
    simp [thumbValid, savedDefaultThumb, default_thumb_name_ne]
  · show (create_default_thumbnail env video_id st).2.name ≠ ""
    rw [hrec]
    simpa [savedDefaultThumb] using default_thumb_name_ne video_id

/-- Witness for C8 (amended): all extractions fail, Pillow is available, the
placeholder is created and saved. -/
theorem create_default_thumbnail_fallback_witness :
    (process_video_thumbnail c8_wenv 5 thumb_st_none).defaultInvoked = true
    ∧ (process_video_thumbnail c8_wenv 5 thumb_st_none).ok = true
    ∧ thumbValid (process_video_thumbnail c8_wenv 5 thumb_st_none).st = true
    ∧ (process_video_thumbnail c8_wenv 5 thumb_st_none).st.name ≠ "" := by
  have h := create_default_thumbnail_fallback c8_wenv 5 thumb_st_none
    (by decide) (fun a t => rfl)
  exact ⟨h.1, (h.2 (by decide)).1, (h.2 (by decide)).2.1, (h.2 (by decide)).2.2⟩

/-- C5: for an asset that passes pre-processing validation, when the queue
depth read at enqueue time exceeds the back-pressure threshold of 50
pending jobs, the whole creation/enqueue path — `Video.save()` with its
post_save signal and the follow-up `handle_video_processing_queue` call —
enqueues no job and ends with the persisted processing_status equal to
`pending`, not `failed`: the signal's transient `failed` write is
overwritten when `handle_video_processing_queue` re-runs
`queue_video_processing`, whose back-pressure branch re-persists `pending`. -/
theorem video_save_backpressure (env : EnqueueEnv) (st0 : PStatus)
    (hval : env.validationOk = true) (hacc : env.queueAccessOk = true)
    (hq : env.queueLength > 50) :
    video_save env true true st0 = (.pending, false) := by
  cases st0 <;>
    simp [video_save, process_video, handle_video_processing_queue,
      queue_video_processing, hval, hacc, hq]

/-- Witness for C5: a fresh pending asset saved while the queue holds 51
jobs ends pending with nothing enqueued. -/
theorem video_save_backpressure_witness :
    video_save c5_env true true .pending = (.pending, false) :=
  video_save_backpressure c5_env .pending rfl rfl (by decide)

/-- C9 (code divergence, evaluated at the failing input): even when all
three underlying removals fail, each of the three cleanups is attempted and
a summary is logged — but the summary records all three as succeeded,
because each helper swallows its own errors and the boolean returned by
`cleanup_hls_files` is ignored, so the summary does not record which of the
three actually succeeded. -/
theorem delete_video_files_summary_bug :
    (delete_video_files c9_env).videoAttempted = true
    ∧ (delete_video_files c9_env).thumbAttempted = true
    ∧ (delete_video_files c9_env).hlsAttempted = true
    ∧ (delete_video_files c9_env).summaryLogged = true
    ∧ (delete_video_files c9_env).summary = (true, true, true)
    ∧ (cleanup_hls_files c9_env).2 = false
    ∧ video_delete_succeeded c9_env = false
    ∧ thumb_delete_succeeded c9_env = false := by
  decide

/-- C4: the validator accepts exactly the uploads passing every constraint,
checked in the stated fail-fast order — non-null, non-empty, size at most
100.5 MB, extension in the allowed set, encoder available, deep probe
succeeding with at least one video stream, duration in one second to 7200
seconds, and dimensions within 320x240 to 3840x2160 — and each boundary
violation produces the matching error, with earlier checks taking precedence
over later ones. -/
theorem comprehensive_video_validator_spec :
    (∀ (f : UploadFile) (env : ValidatorEnv),
      comprehensive_core f env = .ok () ↔
        (f.present = true ∧ f.size ≠ 0 ∧ (f.size : ℚ) ≤ max_size
          ∧ (allowed_extensions.contains (file_extension_of f.name)) = true
          ∧ env.ffmpegFound = true ∧ env.ffmpegTimeout = false
          ∧ env.ffmpegExitZero = true ∧ env.unexpectedError = false
          ∧ env.probeTimeout = false ∧ env.probeExitZero = true
          ∧ env.jsonOk = true
          ∧ ∃ vs rest,
              env.streams.filter (fun s => s.codec_type = "video") = vs :: rest
              ∧ 1 ≤ env.duration ∧ env.duration ≤ 7200
              ∧ 320 ≤ vs.width ∧ vs.width ≤ 3840
              ∧ 240 ≤ vs.height ∧ vs.height ≤ 2160))
    ∧ comprehensive_core c4_file_ok c4_env_ok = .ok ()
    ∧ comprehensive_core c4_file_empty c4_env_ok = .error .emptyFile
    ∧ comprehensive_core c4_file_large c4_env_ok = .error .tooLarge
    ∧ comprehensive_core c4_file_badext c4_env_ok = .error .unsupportedFormat
    ∧ comprehensive_core c4_file_ok c4_env_dur0 = .error .noValidDuration
    ∧ comprehensive_core c4_file_ok c4_env_dur7201 = .error .tooLong
    ∧ comprehensive_core c4_file_ok c4_env_h239 = .error .resolutionTooLow
    ∧ comprehensive_core c4_file_ok c4_env_w3841 = .error .resolutionTooHigh
    ∧ comprehensive_core c4_file_null c4_env_ok = .error .noFile
    ∧ comprehensive_core c4_file_empty_badext c4_env_ok = .error .emptyFile
    ∧ comprehensive_core c4_file_badext c4_env_noffmpeg = .error .unsupportedFormat
    ∧ comprehensive_core c4_file_ok c4_env_nostream_dur0 = .error .noVideoStreams
    ∧ comprehensive_core c4_file_ok c4_env_dur0_baddims = .error .noValidDuration := by
  refine ⟨?_, by decide, by decide, by decide, by decide, by decide, by decide,
    by decide, by decide, by decide, by decide, by decide, by decide, by decide⟩
  intro f env
  rw [comprehensive_core]
  by_cases h1 : f.present = false
  · rw [if_pos h1]
    exact iff_of_false (by simp) (by simp [h1])
  rw [if_neg h1]
  by_cases h2 : f.size = 0
  · rw [if_pos h2]
    exact iff_of_false (by simp) (by simp [h2])
  rw [if_neg h2]
  by_cases h3 : (f.size : ℚ) > max_size
  · rw [if_pos h3]
    exact iff_of_false (by simp) (by simp [not_le.mpr h3])
  rw [if_neg h3]
  by_cases h4 : (allowed_extensions.contains (file_extension_of f.name)) = false
  · rw [if_pos h4]
    have h4m : file_extension_of f.name ∉ allowed_extensions := by simpa using h4
    exact iff_of_false (by simp) (by simp [h4m])
  rw [if_neg h4]
  by_cases h5 : env.ffmpegFound = false
  · rw [if_pos h5]
    exact iff_of_false (by simp) (by simp [h5])
  rw [if_neg h5]
  by_cases h6 : env.ffmpegTimeout = true
  · rw [if_pos h6]
    exact iff_of_false (by simp) (by simp [h6])
  rw [if_neg h6]
  by_cases h7 : env.ffmpegExitZero = false
  · rw [if_pos h7]
    exact iff_of_false (by simp) (by simp [h7])
  rw [if_neg h7]
  by_cases h8 : env.unexpectedError = true
  · rw [if_pos h8]
    exact iff_of_false (by simp) (by simp [h8])
  rw [if_neg h8]
  by_cases h9 : env.probeTimeout = true
  · rw [if_pos h9]
    exact iff_of_false (by simp) (by simp [h9])
  rw [if_neg h9]
  by_cases h10 : env.probeExitZero = false
  · rw [if_pos h10]
    exact iff_of_false (by simp) (by simp [h10])
  rw [if_neg h10]
  by_cases h11 : env.jsonOk = false
  · rw [if_pos h11]
    exact iff_of_false (by simp) (by simp [h11])
  rw [if_neg h11]
  cases hstream : env.streams.filter (fun s => s.codec_type = "video") with
  | nil => exact iff_of_false (by simp) (by simp)
  | cons vs rest =>
      dsimp only
      by_cases g1 : env.duration ≤ 0
      · rw [if_pos g1]
        refine iff_of_false (by simp) ?_
        rintro ⟨-, -, -, -, -, -, -, -, -, -, -, vs2, rest2, heq, hd1, hd2,
          hw1, hw2, hh1, hh2⟩
        linarith
      rw [if_neg g1]
      by_cases g2 : env.duration > 7200
      · rw [if_pos g2]
        refine iff_of_false (by simp) ?_
        rintro ⟨-, -, -, -, -, -, -, -, -, -, -, vs2, rest2, heq, hd1, hd2,
          hw1, hw2, hh1, hh2⟩
        linarith
      rw [if_neg g2]
      by_cases g3 : env.duration < 1
      · rw [if_pos g3]
        refine iff_of_false (by simp) ?_
        rintro ⟨-, -, -, -, -, -, -, -, -, -, -, vs2, rest2, heq, hd1, hd2,
          hw1, hw2, hh1, hh2⟩
        linarith
      rw [if_neg g3]
      by_cases g4 : vs.width ≤ 0 ∨ vs.height ≤ 0
      · rw [if_pos g4]
        refine iff_of_false (by simp) ?_
        rintro ⟨-, -, -, -, -, -, -, -, -, -, -, vs2, rest2, heq, hd1, hd2,
          hw1, hw2, hh1, hh2⟩
        simp only [List.cons.injEq] at heq
        obtain ⟨rfl, rfl⟩ := heq
        rcases g4 with g4 | g4 <;> omega
      rw [if_neg g4]
      by_cases g5 : vs.width > 3840 ∨ vs.height > 2160
      · rw [if_pos g5]
        refine iff_of_false (by simp) ?_
        rintro ⟨-, -, -, -, -, -, -, -, -, -, -, vs2, rest2, heq, hd1, hd2,
          hw1, hw2, hh1, hh2⟩
        simp only [List.cons.injEq] at heq
        obtain ⟨rfl, rfl⟩ := heq
        rcases g5 with g5 | g5 <;> omega
      rw [if_neg g5]
      by_cases g6 : vs.width < 320 ∨ vs.height < 240
      · rw [if_pos g6]
        refine iff_of_false (by simp) ?_
        rintro ⟨-, -, -, -, -, -, -, -, -, -, -, vs2, rest2, heq, hd1, hd2,
          hw1, hw2, hh1, hh2⟩
        simp only [List.cons.injEq] at heq
        obtain ⟨rfl, rfl⟩ := heq
        rcases g6 with g6 | g6 <;> omega
      rw [if_neg g6]
      push_neg at g4 g5 g6
      refine iff_of_true rfl
        ⟨bool_eq_true_of_ne_false h1, h2, not_lt.mp h3,
          bool_eq_true_of_ne_false h4, bool_eq_true_of_ne_false h5,
          bool_eq_false_of_ne_true h6, bool_eq_true_of_ne_false h7,
          bool_eq_false_of_ne_true h8, bool_eq_false_of_ne_true h9,
          bool_eq_true_of_ne_false h10, bool_eq_true_of_ne_false h11,
          vs, rest, rfl, not_lt.mp g3, not_lt.mp g2, ?_, ?_, ?_, ?_⟩
      · omega
      · omega
      · omega
      · omega

/-- C10: for every upload that supports seek, the validator leaves the read
position at 0 on every exit path — the success return, each raised
ValidationError, and errors translated from unexpected exceptions. -/
theorem comprehensive_video_validator_resets_position (f : UploadFile)
    (env : ValidatorEnv) (pos : Nat) (h : f.canSeek = true) :
    (comprehensive_video_validator f env pos).2 = 0 := by
  simp [comprehensive_video_validator, h]

/-- Witness for C10: a seekable upload whose deep probe fails still ends
with its read position reset to 0. -/
theorem comprehensive_video_validator_resets_position_witness :
    c10_file.canSeek = true
    ∧ (comprehensive_video_validator c10_file c10_env 41).2 = 0 :=
  ⟨rfl, comprehensive_video_validator_resets_position c10_file c10_env 41 rfl⟩

end Videoflix
